import Mathlib

/-!
Verification of the chatbot backend (src/app.py) against its specification.

The backend is a Flask application.  We embed its core logic shallowly:

* the document registry (the module-level dict named documents) becomes an
  insertion-ordered association list of id/entry pairs, with Python dict
  semantics (lookup finds the unique key, assignment overwrites in place,
  del removes the entry);
* the upload directory becomes a list of path strings (the set of files the
  application has on disk), kept duplicate-free because the filesystem is a
  set of paths;
* external effects that app.py does not itself compute are passed in as
  oracle arguments: the uuid generated by uuid.uuid4() (argument newId), the
  outcome of decoding the uploaded bytes as UTF-8 (argument decoded, none
  meaning UnicodeDecodeError), the outcome of os.remove (an Option String
  exception or a list of paths whose removal fails), and the chunk sequence
  plus optional raised exception delivered by the upstream Anthropic
  streaming API.

Request handlers are translated function by function from src/app.py and
keep their Python names.
-/

/-- A conversation message as built by add_user_messages and
add_assistant_messages in app.py: a role tag and a content string. -/
structure Message where
  role : String
  content : String
deriving Repr, DecidableEq

/-- app.py line 35: append a user message to the message list. -/
def add_user_messages (messages : List Message) (text : String) : List Message :=
  messages ++ [{ role := "user", content := text }]

/-- app.py line 39: append an assistant message to the message list. -/
def add_assistant_messages (messages : List Message) (text : String) : List Message :=
  messages ++ [{ role := "assistant", content := text }]

/-- One registry entry, the value stored in the documents dict at upload:
filename, path and content (app.py lines 87-91). -/
structure DocEntry where
  filename : String
  path : String
  content : String
deriving Repr, DecidableEq

/-- Python dict lookup documents[k] / membership test: first (unique) match. -/
def lookupDoc : List (String × DocEntry) → String → Option DocEntry
  | [], _ => none
  | kv :: rest, k => if kv.1 = k then some kv.2 else lookupDoc rest k

/-- Python dict assignment documents[k] = v: overwrite in place when the key
exists, otherwise append (dicts are insertion ordered). -/
def dictInsert : List (String × DocEntry) → String → DocEntry → List (String × DocEntry)
  | [], k, v => [(k, v)]
  | kv :: rest, k, v => if kv.1 = k then (k, v) :: rest else kv :: dictInsert rest k v

/-- Python del documents[k]: remove the entry with key k. -/
def eraseDoc : List (String × DocEntry) → String → List (String × DocEntry)
  | [], _ => []
  | kv :: rest, k => if kv.1 = k then rest else kv :: eraseDoc rest k

/-- The server state: the documents registry dict, the set of files on disk
in the upload folder, and (ghost state for uniqueness claims) every id the
upload handler has ever issued. -/
structure ServerState where
  documents : List (String × DocEntry)
  files : List String
  issued : List String
deriving Repr, DecidableEq

/-- The state at process start: empty registry, empty upload folder. -/
def initialState : ServerState := { documents := [], files := [], issued := [] }

/-- str(UPLOAD_FOLDER / (file_id + "_" + filename)) at app.py line 79. -/
def uploadPath (file_id filename : String) : String :=
  "uploads/" ++ file_id ++ "_" ++ filename

/-- file.save(file_path): the disk gains the path (a filesystem is a set of
paths, so saving to an existing path does not duplicate it). -/
def saveFile (files : List String) (p : String) : List String :=
  if p ∈ files then files else p :: files

/-- app.py lines 47-55, read_file_content: the UTF-8 decode of the saved
bytes is the oracle argument decoded (none models UnicodeDecodeError); on
failure the result is the binary-file placeholder naming file_path.name. -/
def read_file_content (pathName : String) (decoded : Option String) : String :=
  match decoded with
  | some text => text
  | none => "[Binary file: " ++ pathName ++ ". Content not readable as text.]"

/-- Result of the upload handler: a 400 error response or the success JSON
with file_id, filename and message. -/
inductive UploadResult
  | errorRes (status : Nat) (error : String)
  | ok (file_id : String) (filename : String) (message : String)
deriving Repr, DecidableEq

/-- app.py lines 64-97, upload_file.  Arguments beyond the state: the
request file field (none when absent, otherwise its client-supplied
filename), the uuid4 string, and the UTF-8 decode outcome of the bytes. -/
def upload_file (st : ServerState) (file? : Option String) (newId : String)
    (decoded : Option String) : UploadResult × ServerState :=
  match file? with
  | none => (.errorRes 400 "No file provided", st)
  | some filename =>
    if filename = "" then (.errorRes 400 "No file selected", st)
    else
      let file_path := uploadPath newId filename
      let files := saveFile st.files file_path
      let content := read_file_content (newId ++ "_" ++ filename) decoded
      let documents := dictInsert st.documents newId
        { filename := filename, path := file_path, content := content }
      (.ok newId filename "File uploaded successfully",
       { documents := documents, files := files, issued := newId :: st.issued })

/-- Concatenation of a list of strings, used to state loop specifications. -/
def sjoin : List String → String
  | [] => ""
  | s :: rest => s ++ sjoin rest

/-- The header the chat handler assigns to context when file_ids is truthy
(app.py line 113). -/
def headerStr : String := "=== UPLOADED DOCUMENTS ===\n\n"

/-- One iteration body of the context loop (app.py lines 117-119): header
line with the filename, a rule of fifty hyphens, the content, a blank
line. -/
def docBlock (doc : DocEntry) : String :=
  "Document: " ++ doc.filename ++ "\n" ++ String.mk (List.replicate 50 '-') ++ "\n"
    ++ doc.content ++ "\n\n"

/-- The for loop of app.py lines 114-119: walk file_ids in caller order,
appending a block for every id found in the registry and skipping the
rest. -/
def contextLoop (docs : List (String × DocEntry)) : List String → String → String
  | [], acc => acc
  | fid :: rest, acc =>
    match lookupDoc docs fid with
    | some doc => contextLoop docs rest (acc ++ docBlock doc)
    | none => contextLoop docs rest acc

/-- app.py lines 111-119: context is the empty string unless file_ids is a
truthy (non-empty) list, in which case the loop runs starting from the
header. -/
def buildContext (docs : List (String × DocEntry)) (file_ids : List String) : String :=
  if file_ids = [] then "" else contextLoop docs file_ids headerStr

/-- The system prompt of app.py lines 122-131. -/
def system_prompt : String :=
  "You are a security compliance assistant helping to verify assessment questionnaire answers against security policies.\n\nYour role is to:\n1. Analyze uploaded security policies and assessment questionnaires\n2. Check if answers comply with stated policies\n3. Identify gaps, inconsistencies, or areas of concern\n4. Provide specific references to relevant policy sections\n5. Suggest improvements or corrections when needed\n\nBe thorough, objective, and cite specific sections from the documents when making assessments."

/-- The fixed acknowledgment segment of app.py line 138. -/
def ackText : String :=
  "I have received the uploaded documents. How can I help you analyze them?"

/-- Result of the chat handler: either the 400 error response, or the
streaming Response built over stream_response with the assembled message
list and system prompt. -/
inductive ChatResponse
  | badRequest (error : String)
  | eventStream (messages : List Message) (systemPrompt : String)
deriving Repr, DecidableEq

/-- app.py lines 100-150, chat.  The message field of the request JSON is an
Option String (none when absent); data.get returns the empty string then. -/
def chat (docs : List (String × DocEntry)) (message : Option String)
    (file_ids : List String) : ChatResponse :=
  let user_message := message.getD ""
  if user_message = "" then .badRequest "No message provided"
  else
    let context := buildContext docs file_ids
    let messages : List Message := []
    let messages :=
      if context = "" then messages
      else add_assistant_messages (add_user_messages messages context) ackText
    let messages := add_user_messages messages user_message
    .eventStream messages system_prompt

/-- Whether a chat result goes on to consume client.messages.stream: only
the eventStream branch builds the generator that calls the upstream API. -/
def invokesUpstream : ChatResponse → Bool
  | .badRequest _ => false
  | .eventStream _ _ => true

/-- The chunk types stream_response inspects (app.py lines 163 and 170);
every other upstream chunk type is other. -/
inductive ChunkType
  | content_block_delta
  | content_block_stop
  | other
deriving Repr, DecidableEq

/-- One chunk from the upstream stream: its type and, when the delta object
has a text attribute, that text. -/
structure Chunk where
  type : ChunkType
  deltaText : Option String
deriving Repr, DecidableEq

/-- A server-sent event yielded by stream_response: a data event carrying
the response field and done flag, or the in-band error event. -/
inductive SSE
  | data (response : String) (done : Bool)
  | error (msg : String)
deriving Repr, DecidableEq

/-- The response field of an event (the error event has none; it is read as
empty for concatenation statements). -/
def responseOf : SSE → String
  | .data r _ => r
  | .error _ => ""

/-- Whether an event is the in-band error event. -/
def isErrorEv : SSE → Bool
  | .data _ _ => false
  | .error _ => true

/-- Whether a chunk is the content_block_stop terminator. -/
def isStop (c : Chunk) : Bool :=
  match c.type with
  | ChunkType.content_block_stop => true
  | _ => false

/-- The text a chunk contributes: only a content_block_delta whose delta has
a text attribute contributes (app.py lines 163-165). -/
def deltaTextOf (c : Chunk) : Option String :=
  match c.type with
  | ChunkType.content_block_delta => c.deltaText
  | _ => none

/-- The for loop of app.py lines 162-173: events yielded while walking the
chunks, and whether the loop ended by break at a content_block_stop. -/
def streamLoop : List Chunk → List SSE × Bool
  | [] => ([], false)
  | c :: rest =>
    match c.type with
    | ChunkType.content_block_delta =>
      match c.deltaText with
      | some t =>
        let r := streamLoop rest
        (SSE.data t false :: r.1, r.2)
      | none => streamLoop rest
    | ChunkType.content_block_stop => ([SSE.data "" true], true)
    | ChunkType.other => streamLoop rest

/-- app.py lines 152-186, stream_response, as the list of events the
generator yields.  The upstream stream delivers the listed chunks and then,
when exc is some message, raises.  A break at content_block_stop leaves the
iterator before any exception can surface; otherwise the except branch
yields the single error event.  The dead code at lines 181-186 runs after
the try statement but yields nothing (a return merely ends a generator). -/
def stream_response (chunks : List Chunk) (exc : Option String) : List SSE :=
  let r := streamLoop chunks
  if r.2 then r.1
  else
    match exc with
    | some m => r.1 ++ [SSE.error ("Error calling Claude API: " ++ m)]
    | none => r.1

/-- The full reply text of an upstream stream: the concatenation of every
text delta delivered before the terminator. -/
def fullReply (chunks : List Chunk) : String :=
  sjoin ((chunks.takeWhile (fun c => !isStop c)).filterMap deltaTextOf)

/-- Result of the delete handler: the 404 response, the success JSON, or
the 500 response carrying the exception text. -/
inductive DeleteResult
  | notFound
  | success (file_id : String)
  | serverError (error : String)
deriving Repr, DecidableEq

/-- app.py lines 190-218, delete_document.  The outcome of os.remove is the
oracle argument removeExc: some message models a raised exception, caught by
the except branch before del documents[file_id] runs; none models success,
after which the path leaves the disk and the entry leaves the registry. -/
def delete_document (st : ServerState) (file_id : String) (removeExc : Option String) :
    DeleteResult × ServerState :=
  match lookupDoc st.documents file_id with
  | none => (.notFound, st)
  | some doc =>
    match removeExc with
    | some m => (.serverError ("Error deleting file: " ++ m), st)
    | none =>
      (.success file_id,
       { st with
         documents := eraseDoc st.documents file_id
         files := st.files.erase doc.path })

/-- The success JSON of the clear handler: message, failed_deletions and
the success flag. -/
structure ClearResult where
  message : String
  failed_deletions : Nat
  success : Bool
deriving Repr, DecidableEq

/-- The for loop of app.py lines 230-236: walk the registry values, attempt
to remove each backing file, counting failures without aborting.  The
oracle argument failPaths is the set of paths whose os.remove raises. -/
def clearLoop (failPaths : List String) :
    List (String × DocEntry) → List String → Nat → List String × Nat
  | [], files, failed => (files, failed)
  | kv :: rest, files, failed =>
    if kv.2.path ∈ failPaths then clearLoop failPaths rest files (failed + 1)
    else clearLoop failPaths rest (files.erase kv.2.path) failed

/-- app.py lines 220-251, clear_documents: count the registry, run the
removal loop, empty the dict, report the count and the failures.  Nothing
in the outer try body can raise besides the per-file removals, so the outer
except branch is unreachable and not modelled. -/
def clear_documents (st : ServerState) (failPaths : List String) :
    ClearResult × ServerState :=
  let file_count := st.documents.length
  let r := clearLoop failPaths st.documents st.files 0
  ({ message := "Cleared " ++ toString file_count ++ " documents"
     failed_deletions := r.2
     success := true },
   { st with documents := [], files := r.1 })

/-- A mutating operation on the registry, with its oracle inputs: the upload
carries the client filename, the generated uuid and the decode outcome; the
delete and clear carry the os.remove failure oracles. -/
inductive Op
  | uploadOp (filename newId : String) (decoded : Option String)
  | deleteOp (id : String) (removeExc : Option String)
  | clearOp (failPaths : List String)
deriving Repr, DecidableEq

/-- The state transition of one operation (each handler applied for its
state effect). -/
def applyOp (st : ServerState) : Op → ServerState
  | .uploadOp fn id dec => (upload_file st (some fn) id dec).2
  | .deleteOp id exc => (delete_document st id exc).2
  | .clearOp fp => (clear_documents st fp).2

/-- Run a sequence of operations from a state. -/
def applyOps (st : ServerState) (ops : List Op) : ServerState :=
  ops.foldl applyOp st

/-- An operation is benign when its environment oracles behave: the uuid is
fresh (as uuid.uuid4 provides) and the derived path is not already on disk,
and no file removal fails. -/
def goodOp (st : ServerState) : Op → Bool
  | .uploadOp fn id _ =>
    (lookupDoc st.documents id).isNone && !(decide (uploadPath id fn ∈ st.files))
  | .deleteOp _ exc => exc.isNone
  | .clearOp fp => fp.isEmpty

/-- A trace is benign when every operation is benign in the state where it
runs. -/
def goodTrace : ServerState → List Op → Bool
  | _, [] => true
  | st, op :: rest => goodOp st op && goodTrace (applyOp st op) rest

/-- The lockstep invariant of the specification: every registered id has
its backing file on disk, and every file on disk in the upload folder
belongs to some registered document. -/
def lockstep (st : ServerState) : Prop :=
  (∀ kv ∈ st.documents, kv.2.path ∈ st.files) ∧
  (∀ p ∈ st.files, ∃ kv ∈ st.documents, kv.2.path = p)

/-- The strengthened induction invariant: distinct keys, distinct paths, a
duplicate-free disk, and disk membership coinciding with registered
paths. -/
def invStrong (st : ServerState) : Prop :=
  (st.documents.map Prod.fst).Nodup ∧
  (st.documents.map (fun kv => kv.2.path)).Nodup ∧
  st.files.Nodup ∧
  (∀ p, p ∈ st.files ↔ p ∈ st.documents.map (fun kv => kv.2.path))

/-! ## Lemmas about the streaming loop -/

theorem streamLoop_no_stop (chunks : List Chunk) (h : chunks.any isStop = false) :
    streamLoop chunks = ((chunks.filterMap deltaTextOf).map (fun t => SSE.data t false), false) := by
  induction chunks with
  | nil => rfl
  | cons c rest ih =>
    rw [List.any_cons, Bool.or_eq_false_iff] at h
    obtain ⟨ty, dt⟩ := c
    cases ty with
    | content_block_delta =>
      cases dt with
      | some t => simp [streamLoop, deltaTextOf, ih h.2]
      | none => simp [streamLoop, deltaTextOf, ih h.2]
    | content_block_stop => simp [isStop] at h
    | other => simp [streamLoop, deltaTextOf, ih h.2]

theorem streamLoop_stop (chunks : List Chunk) (h : chunks.any isStop = true) :
    streamLoop chunks =
      (((chunks.takeWhile (fun c => !isStop c)).filterMap deltaTextOf).map
          (fun t => SSE.data t false) ++ [SSE.data "" true], true) := by
  induction chunks with
  | nil => simp at h
  | cons c rest ih =>
    rw [List.any_cons] at h
    obtain ⟨ty, dt⟩ := c
    cases ty with
    | content_block_delta =>
      have h2 : rest.any isStop = true := by simpa [isStop] using h
      cases dt with
      | some t => simp [streamLoop, List.takeWhile, isStop, deltaTextOf, ih h2]
      | none => simp [streamLoop, List.takeWhile, isStop, deltaTextOf, ih h2]
    | content_block_stop =>
      simp [streamLoop, List.takeWhile, isStop]
    | other =>
      have h2 : rest.any isStop = true := by simpa [isStop] using h
      simp [streamLoop, List.takeWhile, isStop, deltaTextOf, ih h2]

theorem countP_data_events_zero (texts : List String) :
    (texts.map (fun t => SSE.data t false)).countP isErrorEv = 0 := by
  induction texts with
  | nil => rfl
  | cons t rest ih => simp [List.countP_cons, isErrorEv, ih]

/-- Claim C1: for every successful streaming reply (the upstream stream
contains a content_block_stop), the events stream_response yields are zero
or more done:false fragments, one per text delta before the stop, followed
by exactly one terminal event with empty response and done:true and nothing
after it; and concatenating the response fields of the non-terminal events
gives the full reply text. -/
theorem stream_success_shape (chunks : List Chunk) (exc : Option String)
    (h : chunks.any isStop = true) :
    stream_response chunks exc =
      ((chunks.takeWhile (fun c => !isStop c)).filterMap deltaTextOf).map
          (fun t => SSE.data t false) ++ [SSE.data "" true] ∧
    sjoin ((stream_response chunks exc).dropLast.map responseOf) = fullReply chunks := by
  have hl := streamLoop_stop chunks h
  have hmain : stream_response chunks exc =
      ((chunks.takeWhile (fun c => !isStop c)).filterMap deltaTextOf).map
          (fun t => SSE.data t false) ++ [SSE.data "" true] := by
    simp [stream_response, hl]
  refine ⟨hmain, ?_⟩
  rw [hmain, List.dropLast_concat, List.map_map]
  have hresp : (responseOf ∘ fun t => SSE.data t false) = id := by
    funext t
    rfl
  rw [hresp, List.map_id]
  rfl

/-- Claim C1 witness at a concrete upstream stream. -/
theorem stream_success_shape_witness :
    ([Chunk.mk .content_block_delta (some "Hel"), Chunk.mk .content_block_delta none,
      Chunk.mk .other none, Chunk.mk .content_block_delta (some "lo"),
      Chunk.mk .content_block_stop none,
      Chunk.mk .content_block_delta (some "late")].any isStop = true) ∧
    (stream_response
      [Chunk.mk .content_block_delta (some "Hel"), Chunk.mk .content_block_delta none,
       Chunk.mk .other none, Chunk.mk .content_block_delta (some "lo"),
       Chunk.mk .content_block_stop none,
       Chunk.mk .content_block_delta (some "late")] none =
      (([Chunk.mk .content_block_delta (some "Hel"), Chunk.mk .content_block_delta none,
         Chunk.mk .other none, Chunk.mk .content_block_delta (some "lo"),
         Chunk.mk .content_block_stop none,
         Chunk.mk .content_block_delta (some "late")].takeWhile
            (fun c => !isStop c)).filterMap deltaTextOf).map
          (fun t => SSE.data t false) ++ [SSE.data "" true] ∧
     sjoin ((stream_response
      [Chunk.mk .content_block_delta (some "Hel"), Chunk.mk .content_block_delta none,
       Chunk.mk .other none, Chunk.mk .content_block_delta (some "lo"),
       Chunk.mk .content_block_stop none,
       Chunk.mk .content_block_delta (some "late")] none).dropLast.map responseOf) =
      fullReply
      [Chunk.mk .content_block_delta (some "Hel"), Chunk.mk .content_block_delta none,
       Chunk.mk .other none, Chunk.mk .content_block_delta (some "lo"),
       Chunk.mk .content_block_stop none,
       Chunk.mk .content_block_delta (some "late")]) :=
  ⟨by decide, stream_success_shape _ none (by decide)⟩

/-- Claim C2: when the upstream call raises (no stop chunk was delivered and
the iterator raises with message m), stream_response yields the fragments
already produced followed by exactly one in-band error event, and the
generator ends there without propagating the exception; the count of error
events in the whole output is one. -/
theorem stream_error_shape (chunks : List Chunk) (m : String)
    (h : chunks.any isStop = false) :
    stream_response chunks (some m) =
      (chunks.filterMap deltaTextOf).map (fun t => SSE.data t false)
        ++ [SSE.error ("Error calling Claude API: " ++ m)] ∧
    (stream_response chunks (some m)).countP isErrorEv = 1 := by
  have hl := streamLoop_no_stop chunks h
  have hmain : stream_response chunks (some m) =
      (chunks.filterMap deltaTextOf).map (fun t => SSE.data t false)
        ++ [SSE.error ("Error calling Claude API: " ++ m)] := by
    simp [stream_response, hl]
  refine ⟨hmain, ?_⟩
  rw [hmain, List.countP_append, countP_data_events_zero]
  rfl

/-- Claim C2 witness at a concrete interrupted stream. -/
theorem stream_error_shape_witness :
    ([Chunk.mk .other none, Chunk.mk .content_block_delta (some "par")].any isStop = false) ∧
    (stream_response [Chunk.mk .other none, Chunk.mk .content_block_delta (some "par")]
        (some "boom") =
      ([Chunk.mk .other none,
        Chunk.mk .content_block_delta (some "par")].filterMap deltaTextOf).map
          (fun t => SSE.data t false)
        ++ [SSE.error ("Error calling Claude API: " ++ "boom")] ∧
     (stream_response [Chunk.mk .other none, Chunk.mk .content_block_delta (some "par")]
        (some "boom")).countP isErrorEv = 1) :=
  ⟨by decide, stream_error_shape _ "boom" (by decide)⟩

/-- Claim C3: a chat request whose message field is empty or absent gets the
400 response with an error body, and the upstream API is never invoked. -/
theorem chat_empty_message (docs : List (String × DocEntry)) (message : Option String)
    (file_ids : List String) (h : message.getD "" = "") :
    chat docs message file_ids = ChatResponse.badRequest "No message provided" ∧
    invokesUpstream (chat docs message file_ids) = false := by
  have hmain : chat docs message file_ids = ChatResponse.badRequest "No message provided" := by
    simp [chat, h]
  exact ⟨hmain, by rw [hmain]; rfl⟩

/-- Claim C3 witness at an absent message field. -/
theorem chat_empty_message_witness :
    ((none : Option String).getD "" = "") ∧
    (chat [] none ["f1"] = ChatResponse.badRequest "No message provided" ∧
     invokesUpstream (chat [] none ["f1"]) = false) :=
  ⟨rfl, chat_empty_message [] none ["f1"] rfl⟩

/-! ## Lemmas about the registry operations -/

theorem lookupDoc_dictInsert_self (d : List (String × DocEntry)) (k : String) (v : DocEntry) :
    lookupDoc (dictInsert d k v) k = some v := by
  induction d with
  | nil => simp [dictInsert, lookupDoc]
  | cons kv rest ih =>
    by_cases hk : kv.1 = k
    · simp [dictInsert, hk, lookupDoc]
    · simp [dictInsert, hk, lookupDoc, ih]

/-- Claim C4: uploading a file with a nonempty filename under a fresh uuid
returns that id as file_id (distinct from every previously issued id,
freshness being what uuid.uuid4 provides), records it as issued, and a
registry lookup of the id yields the original filename together with the
decoded UTF-8 content, read_file_content substituting the binary-file
placeholder when decoding fails. -/
theorem upload_registers (st : ServerState) (filename newId : String) (decoded : Option String)
    (hname : filename ≠ "") (hfresh : newId ∉ st.issued) :
    (upload_file st (some filename) newId decoded).1 =
      UploadResult.ok newId filename "File uploaded successfully" ∧
    newId ∉ st.issued ∧
    (upload_file st (some filename) newId decoded).2.issued = newId :: st.issued ∧
    lookupDoc (upload_file st (some filename) newId decoded).2.documents newId =
      some { filename := filename, path := uploadPath newId filename,
             content := read_file_content (newId ++ "_" ++ filename) decoded } := by
  refine ⟨?_, hfresh, ?_, ?_⟩ <;> simp [upload_file, hname, lookupDoc_dictInsert_self]

/-- Claim C4 witness at a concrete upload onto a state with one issued id. -/
theorem upload_registers_witness :
    ("notes.txt" ≠ "" ∧
      "id2" ∉ ({ documents := [("id1", { filename := "a", path := "uploads/id1_a",
                                          content := "x" })],
                 files := ["uploads/id1_a"], issued := ["id1"] } : ServerState).issued) ∧
    ((upload_file { documents := [("id1", { filename := "a", path := "uploads/id1_a",
                                            content := "x" })],
                    files := ["uploads/id1_a"], issued := ["id1"] }
        (some "notes.txt") "id2" none).1 =
      UploadResult.ok "id2" "notes.txt" "File uploaded successfully" ∧
     "id2" ∉ ({ documents := [("id1", { filename := "a", path := "uploads/id1_a",
                                        content := "x" })],
                files := ["uploads/id1_a"], issued := ["id1"] } : ServerState).issued ∧
     (upload_file { documents := [("id1", { filename := "a", path := "uploads/id1_a",
                                            content := "x" })],
                    files := ["uploads/id1_a"], issued := ["id1"] }
        (some "notes.txt") "id2" none).2.issued = "id2" :: ["id1"] ∧
     lookupDoc (upload_file { documents := [("id1", { filename := "a", path := "uploads/id1_a",
                                                      content := "x" })],
                              files := ["uploads/id1_a"], issued := ["id1"] }
        (some "notes.txt") "id2" none).2.documents "id2" =
      some { filename := "notes.txt", path := uploadPath "id2" "notes.txt",
             content := read_file_content ("id2" ++ "_" ++ "notes.txt") none }) :=
  ⟨⟨by decide, by decide⟩, upload_registers _ "notes.txt" "id2" none (by decide) (by decide)⟩

/-! ## Lemmas about the context assembler -/

theorem contextLoop_none (docs : List (String × DocEntry)) (ids : List String) (acc : String)
    (h : ∀ fid ∈ ids, lookupDoc docs fid = none) :
    contextLoop docs ids acc = acc := by
  induction ids with
  | nil => rfl
  | cons fid rest ih =>
    have hf : lookupDoc docs fid = none := h fid (by simp)
    simp only [contextLoop, hf]
    exact ih fun x hx => h x (by simp [hx])

theorem contextLoop_spec (docs : List (String × DocEntry)) (ids : List String) (acc : String) :
    contextLoop docs ids acc = acc ++ sjoin ((ids.filterMap (lookupDoc docs)).map docBlock) := by
  induction ids generalizing acc with
  | nil => simp [contextLoop, sjoin, String.append_empty]
  | cons fid rest ih =>
    cases hf : lookupDoc docs fid with
    | none => simp [contextLoop, hf, ih]
    | some doc => simp [contextLoop, hf, ih, sjoin, String.append_assoc]

/-- Claim C5 fails on the code: with a non-empty file_ids list none of whose
ids is registered, the conversation is NOT the single user message.  The
loop contributes nothing, but context was already assigned the header, which
is truthy, so the context and acknowledgment segments are added anyway.
Concretely: empty registry, message hi, file_ids x. -/
theorem chat_no_matches_counterexample :
    chat [] (some "hi") ["x"] ≠
      ChatResponse.eventStream [{ role := "user", content := "hi" }] system_prompt := by
  decide

/-- Claim C5 as amended: with a non-empty message, when no supplied id is in
the registry the conversation is the single user message if file_ids is
empty, and otherwise consists of the bare context header segment, the
acknowledgment segment, and the user message. -/
theorem chat_no_matching_docs (docs : List (String × DocEntry)) (message : Option String)
    (file_ids : List String) (h1 : message.getD "" ≠ "")
    (h2 : ∀ fid ∈ file_ids, lookupDoc docs fid = none) :
    chat docs message file_ids =
      ChatResponse.eventStream
        (if file_ids = [] then [{ role := "user", content := message.getD "" }]
         else [{ role := "user", content := headerStr },
               { role := "assistant", content := ackText },
               { role := "user", content := message.getD "" }])
        system_prompt := by
  by_cases hne : file_ids = []
  · simp [chat, h1, buildContext, hne, add_user_messages]
  · have hctx : buildContext docs file_ids = headerStr := by
      simp [buildContext, hne, contextLoop_none docs file_ids headerStr h2]
    have hh : headerStr ≠ "" := by decide
    simp [chat, h1, hctx, hne, hh, add_user_messages, add_assistant_messages]

/-- Claim C5 witness: one branch with empty file_ids, discharged on the
non-empty branch of the amended statement at registry empty, id x. -/
theorem chat_no_matching_docs_witness :
    ((some "hi" : Option String).getD "" ≠ "" ∧
      ∀ fid ∈ ["x"], lookupDoc [] fid = none) ∧
    chat [] (some "hi") ["x"] =
      ChatResponse.eventStream
        (if (["x"] : List String) = [] then [{ role := "user", content := (some "hi" : Option String).getD "" }]
         else [{ role := "user", content := headerStr },
               { role := "assistant", content := ackText },
               { role := "user", content := (some "hi" : Option String).getD "" }])
        system_prompt :=
  ⟨⟨by decide, by decide⟩, chat_no_matching_docs [] (some "hi") ["x"] (by decide) (by decide)⟩

/-- Claim C6: for a truthy file_ids list, the assembled context is the
header followed by one labeled block (header line with the filename, a rule
of fifty hyphens, the content, a blank line) per id found in the registry,
in caller order with duplicates kept; ids absent from the registry are
filtered out, contributing nothing and raising nothing. -/
theorem buildContext_blocks (docs : List (String × DocEntry)) (ids : List String)
    (h : ids ≠ []) :
    buildContext docs ids =
      headerStr ++ sjoin ((ids.filterMap (lookupDoc docs)).map docBlock) := by
  simp [buildContext, h, contextLoop_spec]

/-- Claim C6 witness: two registered documents referenced out of order, one
duplicated, plus one unknown id. -/
theorem buildContext_blocks_witness :
    ((["idY", "idX", "idX", "ghost"] : List String) ≠ []) ∧
    buildContext
        [("idX", { filename := "policy.txt", path := "uploads/idX_policy.txt",
                   content := "Must use MFA." }),
         ("idY", { filename := "answers.txt", path := "uploads/idY_answers.txt",
                   content := "We use passwords only." })]
        ["idY", "idX", "idX", "ghost"] =
      headerStr ++ sjoin (((["idY", "idX", "idX", "ghost"] : List String).filterMap
        (lookupDoc
          [("idX", { filename := "policy.txt", path := "uploads/idX_policy.txt",
                     content := "Must use MFA." }),
           ("idY", { filename := "answers.txt", path := "uploads/idY_answers.txt",
                     content := "We use passwords only." })])).map docBlock) :=
  ⟨by decide, buildContext_blocks _ _ (by decide)⟩

/-! ## Lemmas about delete and clear -/

theorem lookupDoc_eq_none (d : List (String × DocEntry)) (k : String) :
    lookupDoc d k = none ↔ k ∉ d.map Prod.fst := by
  induction d with
  | nil => simp [lookupDoc]
  | cons kv rest ih =>
    by_cases hk : kv.1 = k
    · simp [lookupDoc, hk]
    · simp [lookupDoc, hk, ih, Ne.symm hk]

theorem lookupDoc_some_decomp (d : List (String × DocEntry)) (k : String) (doc : DocEntry)
    (h : lookupDoc d k = some doc) :
    ∃ l1 l2, d = l1 ++ (k, doc) :: l2 ∧ eraseDoc d k = l1 ++ l2 ∧ k ∉ l1.map Prod.fst := by
  induction d with
  | nil => simp [lookupDoc] at h
  | cons kv rest ih =>
    by_cases hk : kv.1 = k
    · refine ⟨[], rest, ?_, ?_, by simp⟩
      · simp only [lookupDoc, hk, if_pos] at h
        obtain ⟨k1, v1⟩ := kv
        simp at hk h
        simp [hk, h]
      · simp [eraseDoc, hk]
    · simp only [lookupDoc, hk, if_neg, if_false] at h
      obtain ⟨l1, l2, hd, he, hk1⟩ := ih h
      exact ⟨kv :: l1, l2, by simp [hd], by simp [eraseDoc, hk, he],
             by simp [hk1, Ne.symm hk]⟩

theorem lookupDoc_eraseDoc_self (d : List (String × DocEntry)) (k : String)
    (hnd : (d.map Prod.fst).Nodup) (doc : DocEntry) (h : lookupDoc d k = some doc) :
    lookupDoc (eraseDoc d k) k = none := by
  obtain ⟨l1, l2, hd, he, _⟩ := lookupDoc_some_decomp d k doc h
  rw [he, lookupDoc_eq_none]
  subst hd
  simp [List.map_append, List.nodup_append] at hnd ⊢
  exact ⟨hnd.2.2.1, hnd.2.1.1⟩

/-- Claim C7: delete of an unregistered id answers 404 and changes nothing;
delete of a registered id with a failing removal answers 500; with a
successful removal it removes the registry entry and the backing file and
answers success, after which deleting the same id answers 404.  The
hypotheses are the dict and filesystem well-formedness: unique keys, no
duplicate paths on disk. -/
theorem delete_document_spec (st : ServerState) (id : String)
    (hkeys : (st.documents.map Prod.fst).Nodup) (hfiles : st.files.Nodup) :
    (lookupDoc st.documents id = none →
      ∀ exc, delete_document st id exc = (DeleteResult.notFound, st)) ∧
    (∀ doc, lookupDoc st.documents id = some doc →
      (∀ m, delete_document st id (some m) =
        (DeleteResult.serverError ("Error deleting file: " ++ m), st)) ∧
      (delete_document st id none).1 = DeleteResult.success id ∧
      lookupDoc (delete_document st id none).2.documents id = none ∧
      doc.path ∉ (delete_document st id none).2.files ∧
      ∀ exc2, delete_document (delete_document st id none).2 id exc2 =
        (DeleteResult.notFound, (delete_document st id none).2)) := by
  constructor
  · intro h exc
    simp [delete_document, h]
  · intro doc h
    have herase : lookupDoc (eraseDoc st.documents id) id = none :=
      lookupDoc_eraseDoc_self st.documents id hkeys doc h
    refine ⟨fun m => by simp [delete_document, h], by simp [delete_document, h], ?_, ?_, ?_⟩
    · simp [delete_document, h, herase]
    · simp only [delete_document, h]
      exact hfiles.not_mem_erase
    · intro exc2
      simp only [delete_document, h]
      simp [delete_document, herase]

/-- Claim C7 witness at a one-document state. -/
theorem delete_document_spec_witness :
    ((([("id1", { filename := "a", path := "uploads/id1_a", content := "x" })]
        : List (String × DocEntry)).map Prod.fst).Nodup ∧
      (["uploads/id1_a"] : List String).Nodup) ∧
    ((lookupDoc [("id1", { filename := "a", path := "uploads/id1_a", content := "x" })]
        "id1" = none →
      ∀ exc, delete_document
          { documents := [("id1", { filename := "a", path := "uploads/id1_a", content := "x" })],
            files := ["uploads/id1_a"], issued := ["id1"] } "id1" exc =
        (DeleteResult.notFound,
         { documents := [("id1", { filename := "a", path := "uploads/id1_a", content := "x" })],
           files := ["uploads/id1_a"], issued := ["id1"] })) ∧
     (∀ doc, lookupDoc [("id1", { filename := "a", path := "uploads/id1_a", content := "x" })]
          "id1" = some doc →
      (∀ m, delete_document
          { documents := [("id1", { filename := "a", path := "uploads/id1_a", content := "x" })],
            files := ["uploads/id1_a"], issued := ["id1"] } "id1" (some m) =
        (DeleteResult.serverError ("Error deleting file: " ++ m),
         { documents := [("id1", { filename := "a", path := "uploads/id1_a", content := "x" })],
           files := ["uploads/id1_a"], issued := ["id1"] })) ∧
      (delete_document
          { documents := [("id1", { filename := "a", path := "uploads/id1_a", content := "x" })],
            files := ["uploads/id1_a"], issued := ["id1"] } "id1" none).1 =
        DeleteResult.success "id1" ∧
      lookupDoc (delete_document
          { documents := [("id1", { filename := "a", path := "uploads/id1_a", content := "x" })],
            files := ["uploads/id1_a"], issued := ["id1"] } "id1" none).2.documents "id1" = none ∧
      doc.path ∉ (delete_document
          { documents := [("id1", { filename := "a", path := "uploads/id1_a", content := "x" })],
            files := ["uploads/id1_a"], issued := ["id1"] } "id1" none).2.files ∧
      ∀ exc2, delete_document (delete_document
          { documents := [("id1", { filename := "a", path := "uploads/id1_a", content := "x" })],
            files := ["uploads/id1_a"], issued := ["id1"] } "id1" none).2 "id1" exc2 =
        (DeleteResult.notFound, (delete_document
          { documents := [("id1", { filename := "a", path := "uploads/id1_a", content := "x" })],
            files := ["uploads/id1_a"], issued := ["id1"] } "id1" none).2))) :=
  ⟨⟨by decide, by decide⟩,
   delete_document_spec
     { documents := [("id1", { filename := "a", path := "uploads/id1_a", content := "x" })],
       files := ["uploads/id1_a"], issued := ["id1"] } "id1" (by decide) (by decide)⟩

/-- Claim C10: when the id is registered and os.remove raises, the handler
answers 500 with the state, hence the registry, unchanged; the entry is
still there (same lookup result), so a retried delete does not answer 404. -/
theorem delete_document_atomic (st : ServerState) (id : String) (doc : DocEntry) (m : String)
    (h : lookupDoc st.documents id = some doc) :
    delete_document st id (some m) =
      (DeleteResult.serverError ("Error deleting file: " ++ m), st) ∧
    lookupDoc (delete_document st id (some m)).2.documents id = some doc ∧
    ∀ exc2, (delete_document (delete_document st id (some m)).2 id exc2).1 ≠
      DeleteResult.notFound := by
  have hmain : delete_document st id (some m) =
      (DeleteResult.serverError ("Error deleting file: " ++ m), st) := by
    simp [delete_document, h]
  refine ⟨hmain, by rw [hmain]; exact h, ?_⟩
  intro exc2
  rw [hmain]
  cases exc2 <;> simp [delete_document, h]

/-- Claim C10 witness at a one-document state. -/
theorem delete_document_atomic_witness :
    (lookupDoc [("id1", { filename := "a", path := "uploads/id1_a", content := "x" })] "id1" =
      some { filename := "a", path := "uploads/id1_a", content := "x" }) ∧
    (delete_document
        { documents := [("id1", { filename := "a", path := "uploads/id1_a", content := "x" })],
          files := ["uploads/id1_a"], issued := ["id1"] } "id1" (some "device busy") =
      (DeleteResult.serverError ("Error deleting file: " ++ "device busy"),
       { documents := [("id1", { filename := "a", path := "uploads/id1_a", content := "x" })],
         files := ["uploads/id1_a"], issued := ["id1"] }) ∧
     lookupDoc (delete_document
        { documents := [("id1", { filename := "a", path := "uploads/id1_a", content := "x" })],
          files := ["uploads/id1_a"], issued := ["id1"] } "id1"
          (some "device busy")).2.documents "id1" =
      some { filename := "a", path := "uploads/id1_a", content := "x" } ∧
     ∀ exc2, (delete_document (delete_document
        { documents := [("id1", { filename := "a", path := "uploads/id1_a", content := "x" })],
          files := ["uploads/id1_a"], issued := ["id1"] } "id1"
          (some "device busy")).2 "id1" exc2).1 ≠ DeleteResult.notFound) :=
  ⟨by decide, delete_document_atomic _ "id1" _ "device busy" (by decide)⟩

theorem clearLoop_failed (fp : List String) (docs : List (String × DocEntry)) :
    ∀ files n, (clearLoop fp docs files n).2 =
      n + (docs.filter (fun kv => decide (kv.2.path ∈ fp))).length := by
  induction docs with
  | nil => intro files n; simp [clearLoop]
  | cons kv rest ih =>
    intro files n
    by_cases hkv : kv.2.path ∈ fp
    · simp [clearLoop, hkv, ih]
      omega
    · simp [clearLoop, hkv, ih]

/-- Claim C8: clear reports the original registry size in its message,
reports as failed_deletions exactly the number of documents whose backing
file removal failed, succeeds, empties the registry regardless of failures,
and an immediately subsequent clear reports zero documents. -/
theorem clear_documents_spec (st : ServerState) (failPaths : List String) :
    (clear_documents st failPaths).1.message =
      "Cleared " ++ toString st.documents.length ++ " documents" ∧
    (clear_documents st failPaths).1.failed_deletions =
      (st.documents.filter (fun kv => decide (kv.2.path ∈ failPaths))).length ∧
    (clear_documents st failPaths).1.success = true ∧
    (clear_documents st failPaths).2.documents = [] ∧
    ∀ fp2, (clear_documents (clear_documents st failPaths).2 fp2).1.message =
      "Cleared 0 documents" := by
  refine ⟨rfl, ?_, rfl, rfl, ?_⟩
  · simpa using clearLoop_failed failPaths st.documents st.files 0
  · intro fp2
    simp only [clear_documents]
    decide

/-! ## The registry and filesystem lockstep invariant -/

theorem invStrong_lockstep (st : ServerState) (h : invStrong st) : lockstep st := by
  obtain ⟨_, _, _, hiff⟩ := h
  constructor
  · intro kv hkv
    exact (hiff _).mpr (List.mem_map_of_mem _ hkv)
  · intro p hp
    obtain ⟨kv, hkv, hpath⟩ := List.mem_map.mp ((hiff p).mp hp)
    exact ⟨kv, hkv, hpath⟩

theorem dictInsert_eq_append (d : List (String × DocEntry)) (k : String) (v : DocEntry)
    (h : k ∉ d.map Prod.fst) : dictInsert d k v = d ++ [(k, v)] := by
  induction d with
  | nil => rfl
  | cons kv rest ih =>
    simp only [List.map_cons, List.mem_cons] at h
    push_neg at h
    simp [dictInsert, Ne.symm h.1, ih h.2]

theorem invStrong_upload (st : ServerState) (fn id : String) (dec : Option String)
    (hinv : invStrong st)
    (hid : lookupDoc st.documents id = none)
    (hpath : uploadPath id fn ∉ st.files) :
    invStrong (upload_file st (some fn) id dec).2 := by
  obtain ⟨hk, hp, hf, hiff⟩ := hinv
  by_cases hfn : fn = ""
  · have hnoop : (upload_file st (some fn) id dec).2 = st := by
      simp [upload_file, hfn]
    rw [hnoop]
    exact ⟨hk, hp, hf, hiff⟩
  · have hid' : id ∉ st.documents.map Prod.fst := (lookupDoc_eq_none _ _).mp hid
    have hpnotin : uploadPath id fn ∉ st.documents.map (fun kv => kv.2.path) :=
      fun hm => hpath ((hiff _).mpr hm)
    have hstate : (upload_file st (some fn) id dec).2 =
        { documents := st.documents ++ [(id,
            { filename := fn, path := uploadPath id fn,
              content := read_file_content (id ++ "_" ++ fn) dec })],
          files := uploadPath id fn :: st.files,
          issued := id :: st.issued } := by
      simp [upload_file, hfn, saveFile, hpath, dictInsert_eq_append st.documents id _ hid']
    rw [hstate]
    refine ⟨?_, ?_, ?_, ?_⟩
    · simp [List.nodup_append, hk, hid']
    · simp [List.nodup_append, hp, hpnotin]
    · exact List.nodup_cons.mpr ⟨hpath, hf⟩
    · intro p
      simp only [List.mem_cons, List.map_append, List.mem_append, List.map_cons,
        List.mem_singleton, List.map_nil, hiff p]
      tauto

theorem invStrong_delete (st : ServerState) (id : String) (hinv : invStrong st) :
    invStrong (delete_document st id none).2 := by
  obtain ⟨hk, hp, hf, hiff⟩ := hinv
  cases hl : lookupDoc st.documents id with
  | none =>
    have hnoop : (delete_document st id none).2 = st := by
      simp [delete_document, hl]
    rw [hnoop]
    exact ⟨hk, hp, hf, hiff⟩
  | some doc =>
    obtain ⟨l1, l2, hd, he, _⟩ := lookupDoc_some_decomp st.documents id doc hl
    have hstate : (delete_document st id none).2 =
        { st with documents := l1 ++ l2, files := st.files.erase doc.path } := by
      simp [delete_document, hl, he]
    rw [hstate]
    have hsub : List.Sublist (l1 ++ l2) st.documents := by
      rw [hd]
      exact (List.sublist_cons_self (id, doc) l2).append_left l1
    have hpaths' : st.documents.map (fun kv => kv.2.path) =
        l1.map (fun kv => kv.2.path) ++ doc.path :: l2.map (fun kv => kv.2.path) := by
      rw [hd]
      simp
    have hdp : doc.path ∉ l1.map (fun kv => kv.2.path) ∧
        doc.path ∉ l2.map (fun kv => kv.2.path) := by
      have hnd := hp
      rw [hpaths'] at hnd
      have hdisj := List.disjoint_of_nodup_append hnd
      have hcons : (doc.path :: l2.map (fun kv => kv.2.path)).Nodup :=
        hnd.sublist (List.sublist_append_right _ _)
      exact ⟨fun hm => hdisj hm (List.mem_cons_self _ _),
             (List.nodup_cons.mp hcons).1⟩
    refine ⟨hk.sublist (hsub.map Prod.fst), hp.sublist (hsub.map _), hf.erase _, ?_⟩
    intro p
    rw [hf.mem_erase_iff, hiff p, hpaths']
    simp only [List.map_append, List.mem_append, List.mem_cons]
    constructor
    · rintro ⟨hne, h1 | h2 | h3⟩
      · exact Or.inl h1
      · exact absurd h2 hne
      · exact Or.inr h3
    · rintro (h1 | h2)
      · exact ⟨fun hh => hdp.1 (hh ▸ h1), Or.inl h1⟩
      · exact ⟨fun hh => hdp.2 (hh ▸ h2), Or.inr (Or.inr h2)⟩

theorem clearLoop_files_nil (docs : List (String × DocEntry)) :
    ∀ (files : List String) (n : Nat), files.Nodup →
      (docs.map (fun kv => kv.2.path)).Nodup →
      (∀ p, p ∈ files ↔ p ∈ docs.map (fun kv => kv.2.path)) →
      (clearLoop [] docs files n).1 = [] := by
  induction docs with
  | nil =>
    intro files n _ _ hiff
    have : files = [] := List.eq_nil_iff_forall_not_mem.mpr (fun a ha => by
      have := (hiff a).mp ha
      simp at this)
    simp [clearLoop, this]
  | cons kv rest ih =>
    intro files n hf hp hiff
    simp only [List.map_cons, List.nodup_cons] at hp
    have hiff' : ∀ p, p ∈ files.erase kv.2.path ↔ p ∈ rest.map (fun kv => kv.2.path) := by
      intro p
      rw [hf.mem_erase_iff, hiff p]
      simp only [List.map_cons, List.mem_cons]
      constructor
      · rintro ⟨hne, h1 | h2⟩
        · exact absurd h1 hne
        · exact h2
      · intro hm
        exact ⟨fun hh => hp.1 (hh ▸ hm), Or.inr hm⟩
    simpa [clearLoop] using ih (files.erase kv.2.path) n (hf.erase _) hp.2 hiff'

theorem invStrong_clear (st : ServerState) (hinv : invStrong st) :
    invStrong (clear_documents st []).2 := by
  obtain ⟨_, hp, hf, hiff⟩ := hinv
  have hfiles : (clearLoop [] st.documents st.files 0).1 = [] :=
    clearLoop_files_nil st.documents st.files 0 hf hp hiff
  simp [invStrong, clear_documents, hfiles]

theorem invStrong_applyOp (st : ServerState) (op : Op)
    (hinv : invStrong st) (hop : goodOp st op = true) :
    invStrong (applyOp st op) := by
  cases op with
  | uploadOp fn id dec =>
    simp only [goodOp, Bool.and_eq_true, Option.isNone_iff_eq_none, Bool.not_eq_true',
      decide_eq_false_iff_not] at hop
    exact invStrong_upload st fn id dec hinv hop.1 hop.2
  | deleteOp id exc =>
    have hexc : exc = none := by simpa [goodOp, Option.isNone_iff_eq_none] using hop
    subst hexc
    exact invStrong_delete st id hinv
  | clearOp fp =>
    have hfp : fp = [] := by simpa [goodOp, List.isEmpty_iff] using hop
    subst hfp
    exact invStrong_clear st hinv

theorem invStrong_applyOps (ops : List Op) :
    ∀ st, invStrong st → goodTrace st ops = true → invStrong (applyOps st ops) := by
  induction ops with
  | nil =>
    intro st h _
    simpa [applyOps] using h
  | cons op rest ih =>
    intro st h htr
    simp only [goodTrace, Bool.and_eq_true] at htr
    have h1 := invStrong_applyOp st op h htr.1
    simpa [applyOps] using ih (applyOp st op) h1 htr.2

/-- Claim C9 fails on the code: after uploading one document and then
clearing while the removal of its backing file fails, the registry is empty
but the file is still on disk, so registry and filesystem are not in
lockstep. -/
theorem lockstep_counterexample :
    ¬ lockstep (applyOps initialState
      [Op.uploadOp "a.txt" "id1" (some "hello"), Op.clearOp ["uploads/id1_a.txt"]]) := by
  unfold lockstep
  decide

/-- Claim C9 as amended: in every state reachable by uploads, deletes and
clears in which the generated ids are fresh (as uuid.uuid4 provides) and no
file removal fails, every registered id has its backing file on disk and
every upload-created file still on disk belongs to a registered id; a clear
whose removal fails breaks the second half, as the counterexample shows. -/
theorem registry_filesystem_lockstep (ops : List Op)
    (h : goodTrace initialState ops = true) :
    lockstep (applyOps initialState ops) := by
  have h0 : invStrong initialState := by
    refine ⟨by simp [initialState], by simp [initialState], by simp [initialState], ?_⟩
    intro p
    simp [initialState]
  exact invStrong_lockstep _ (invStrong_applyOps ops initialState h0 h)

/-- Claim C9 witness: a benign four-step trace with two uploads (one of a
binary file), a delete, and a clear. -/
theorem registry_filesystem_lockstep_witness :
    (goodTrace initialState
      [Op.uploadOp "policy.txt" "idX" (some "Must use MFA."),
       Op.uploadOp "blob.bin" "idY" none,
       Op.deleteOp "idX" none,
       Op.clearOp []] = true) ∧
    lockstep (applyOps initialState
      [Op.uploadOp "policy.txt" "idX" (some "Must use MFA."),
       Op.uploadOp "blob.bin" "idY" none,
       Op.deleteOp "idX" none,
       Op.clearOp []]) :=
  ⟨by decide, registry_filesystem_lockstep _ (by decide)⟩
